import Mathlib

/-!
Shallow embedding of the study-buddy Flask backend (src/app.py).

The app keeps two SQLite tables, `rooms` and `docs`, and a handful of HTTP
handlers that read request fields, touch the tables, assemble a content list
(document blocks followed by one text prompt) and send it to an external
model.  We embed the per-request behaviour as pure functions over an explicit
database state:

* the database is a pair of lists (insertion order = rowid order, the order
  SQLite returns rows of these plain tables when no ORDER BY is given) plus
  the AUTOINCREMENT counters; timestamps are irrelevant to every handler and
  are omitted;
* a JSON/form field that may be absent or null is an `Option`; Python string
  truthiness (`x or y`) is `pyOrStr`;
* the external model (`call_gemini` / `client.models.generate_content`) is an
  oracle `Model : List ContentBlock → Except String String`; a raised
  exception is `Except.error`;
* `Part.from_bytes` becomes `ContentBlock.doc`; `base64.b64decode` is an
  abstract parameter of the handlers that use it (library code, outside the
  repository);
* each handler returns a `HandlerRun`: its HTTP outcome (or an uncaught
  exception), the database after the request, and the list of model requests
  it issued.
-/

/-- A JSON scalar appearing in a response body. -/
inductive JVal where
  | s (v : String)
  | n (v : Nat)
  deriving Repr, DecidableEq

/-- An HTTP response: status code and JSON object body. -/
structure Response where
  status : Nat
  body : List (String × JVal)
  deriving Repr, DecidableEq

/-- How a request ends: a normal HTTP response, or an exception that the
handler did not catch. -/
inductive Outcome where
  | ok (resp : Response)
  | uncaught (err : String)
  deriving Repr, DecidableEq

/-- One unit of content sent to the model: a binary document block with a
MIME type (`Part.from_bytes`) or a plain text block (`{"text": ...}`). -/
inductive ContentBlock where
  | doc (data : List Nat) (mime : String)
  | text (s : String)
  deriving Repr, DecidableEq

/-- A row of the `rooms` table (`id`, unique `room_name`; `created_at` is
never read by any handler and is omitted). -/
structure Room where
  id : Nat
  room_name : String
  deriving Repr, DecidableEq

/-- A row of the `docs` table (`id`, `room_id`, `filename`, `data`, `mime`;
`uploaded_at` is never read and is omitted).  `room_id` is stored exactly as
it arrived in the request, hence an `Option String`. -/
structure Doc where
  id : Nat
  room_id : Option String
  filename : String
  data : List Nat
  mime : String
  deriving Repr, DecidableEq

/-- The database: both tables in insertion (rowid) order, plus the next
AUTOINCREMENT ids. -/
structure DB where
  rooms : List Room
  docs : List Doc
  nextRoomId : Nat
  nextDocId : Nat
  deriving Repr, DecidableEq

/-- The freshly created schema (`init_db` on a new file). -/
def DB.empty : DB := ⟨[], [], 1, 1⟩

/-- Python `x or y` for an optional string field: `None` and `""` are falsy
and give the default. -/
def pyOrStr (x : Option String) (y : String) : String :=
  match x with
  | none => y
  | some s => if s = "" then y else s

/-- The external model as an oracle: a content list in, either the response
text or a raised exception out. -/
abbrev Model := List ContentBlock → Except String String

/-- The result of running one handler: outcome, database afterwards, and the
model requests issued (in order). -/
structure HandlerRun where
  outcome : Outcome
  db : DB
  calls : List (List ContentBlock)
  deriving Repr, DecidableEq

/-- `SELECT id FROM rooms WHERE room_name = ?` (`room_name` is UNIQUE, so
the first hit is the only hit). -/
def findRoom (db : DB) (name : String) : Option Room :=
  db.rooms.find? (fun r => r.room_name == name)

/-- Lines 76-83 of app.py: look the name up; if present return the existing
id, else insert a row and return `cur.lastrowid`. -/
def getOrCreateRoom (db : DB) (name : String) : Nat × DB :=
  match findRoom db name with
  | some r => (r.id, db)
  | none =>
      (db.nextRoomId,
       { db with
           rooms := db.rooms ++ [⟨db.nextRoomId, name⟩],
           nextRoomId := db.nextRoomId + 1 })

/-- Request body of `POST /room`: the optional `room_name` field
(`none` covers both an absent key and JSON null). -/
structure RoomRequest where
  room_name : Option String
  deriving Repr, DecidableEq

/-- `create_room` (app.py lines 71-84): `name = data.get("room_name") or
"default"`, then get-or-create, then `{room_id, room_name}`. -/
def create_room (db : DB) (req : RoomRequest) : HandlerRun :=
  let name := pyOrStr req.room_name "default"
  let p := getOrCreateRoom db name
  { outcome := .ok ⟨200, [("room_id", .n p.1), ("room_name", .s name)]⟩,
    db := p.2,
    calls := [] }

/-- An uploaded file as werkzeug hands it to the handler: filename, raw
bytes, and the (possibly empty) client-declared MIME type. -/
structure PdfFile where
  filename : String
  content : List Nat
  mimetype : Option String
  deriving Repr, DecidableEq

/-- Request of `POST /upload_pdf` (multipart form): optional `room_id`
string and optional `pdf` file. -/
structure UploadRequest where
  room_id : Option String
  pdf : Option PdfFile
  deriving Repr, DecidableEq

/-- `upload_pdf` (app.py lines 87-100): 400 when no file, otherwise insert a
`docs` row with `mime = pdf.mimetype or "application/pdf"` and answer
`{status, filename}`. -/
def upload_pdf (db : DB) (req : UploadRequest) : HandlerRun :=
  match req.pdf with
  | none =>
      { outcome := .ok ⟨400, [("error", .s "No PDF uploaded")]⟩,
        db := db, calls := [] }
  | some f =>
      let mime := pyOrStr f.mimetype "application/pdf"
      let d : Doc := ⟨db.nextDocId, req.room_id, f.filename, f.content, mime⟩
      { outcome := .ok ⟨200, [("status", .s "ok"), ("filename", .s f.filename)]⟩,
        db := { db with docs := db.docs ++ [d], nextDocId := db.nextDocId + 1 },
        calls := [] }

/-- `get_room_parts` (app.py lines 103-113): `SELECT * FROM docs WHERE
room_id = ?` in rowid order, each row turned into a binary Part. -/
def get_room_parts (db : DB) (room_id : String) : List ContentBlock :=
  (db.docs.filter (fun d => d.room_id == some room_id)).map
    (fun d => ContentBlock.doc d.data d.mime)

/-- The `parts = get_room_parts(room_id) if room_id else []` pattern shared
by ask_pdf, flashcards, summarize and quiz: an absent, null or empty
`room_id` is falsy and yields no parts. -/
def roomPartsOpt (db : DB) (room_id : Option String) : List ContentBlock :=
  match room_id with
  | none => []
  | some r => if r = "" then [] else get_room_parts db r

/-- Request of `POST /ask_pdf` (form or JSON): `room_id`, `question` with
fallback key `prompt`, and `level`. -/
structure AskPdfRequest where
  room_id : Option String
  question : Option String
  prompt : Option String
  level : Option String
  deriving Repr, DecidableEq

/-- `question = payload.get("question") or payload.get("prompt") or ""`. -/
def askPdfQuestion (req : AskPdfRequest) : String :=
  pyOrStr req.question (pyOrStr req.prompt "")

/-- `level = payload.get("level") or "default"`. -/
def askPdfLevel (req : AskPdfRequest) : String :=
  pyOrStr req.level "default"

/-- The fixed preamble of the /ask_pdf instruction (app.py lines 131-135). -/
def askPdfBase : String :=
  "You are allowed to use ONLY the uploaded documents as source. " ++
  "Answer concisely. Include JSON \x27citations\x27 array where each item has fields: page, excerpt. " ++
  "If answer is not found inside uploaded documents, say so clearly. "

/-- The /ask_pdf instruction after the explanation-level hint (app.py lines
131-142): the preamble plus one clause appended on an exact match of the
level against "child", "exam" or "professor". -/
def askPdfInstruction (level : String) : String :=
  if level = "child" then askPdfBase ++ "Explain like I\x27m 10. "
  else if level = "exam" then askPdfBase ++ "Explain concisely, exam-focused. "
  else if level = "professor" then askPdfBase ++ "Give an in-depth technical explanation. "
  else askPdfBase

/-- `user_prompt = instruction + "\nQuestion: " + question` (app.py 144). -/
def askPdfPrompt (req : AskPdfRequest) : String :=
  askPdfInstruction (askPdfLevel req) ++ "\nQuestion: " ++ askPdfQuestion req

/-- `ask_pdf` (app.py lines 116-155): 400 when the question resolves to the
empty string; otherwise load the room parts (if a truthy room_id was given),
append the text prompt, call the model inside try/except, and answer 200
`{answer}` or 500 `{error}`. -/
def ask_pdf (db : DB) (req : AskPdfRequest) (model : Model) : HandlerRun :=
  if askPdfQuestion req = "" then
    { outcome := .ok ⟨400, [("error", .s "No question provided")]⟩,
      db := db, calls := [] }
  else
    let contents := roomPartsOpt db req.room_id ++ [ContentBlock.text (askPdfPrompt req)]
    match model contents with
    | .ok t =>
        { outcome := .ok ⟨200, [("answer", .s t)]⟩, db := db, calls := [contents] }
    | .error e =>
        { outcome := .ok ⟨500, [("error", .s e)]⟩, db := db, calls := [contents] }

/-- Request of `POST /ask_text`: `question` and `level`. -/
structure AskTextRequest where
  question : Option String
  level : Option String
  deriving Repr, DecidableEq

/-- The /ask_text level clause (app.py lines 165-171): `instr` starts empty
and is set on an exact match of the level. -/
def askTextInstr (level : String) : String :=
  if level = "child" then "Explain like I\x27m 10. "
  else if level = "exam" then "Explain concisely, exam-focused. "
  else if level = "professor" then "Explain in-depth like a professor. "
  else ""

/-- `ask_text` (app.py lines 158-174): `question = data.get("question", "")`,
`level = data.get("level", "default")`, 400 on empty question, otherwise a
single text block; the model call is NOT wrapped in try/except, so a raised
exception propagates uncaught. -/
def ask_text (db : DB) (req : AskTextRequest) (model : Model) : HandlerRun :=
  let question := req.question.getD ""
  let level := req.level.getD "default"
  if question = "" then
    { outcome := .ok ⟨400, [("error", .s "No question")]⟩, db := db, calls := [] }
  else
    let contents := [ContentBlock.text (askTextInstr level ++ question)]
    match model contents with
    | .ok t => { outcome := .ok ⟨200, [("answer", .s t)]⟩, db := db, calls := [contents] }
    | .error e => { outcome := .uncaught e, db := db, calls := [contents] }

/-- Python `s.split(",", 1)[1] if "," in s else s`: the data-URL payload
after the first comma (app.py lines 184 and 198 keep only this component). -/
def afterFirstComma (s : String) : String :=
  match s.splitOn "," with
  | [] => s
  | [_] => s
  | _ :: rest => String.intercalate "," rest

/-- Request of `POST /ask_image`: base64 data-URL `image` and `question`. -/
structure AskImageRequest where
  image : Option String
  question : Option String
  deriving Repr, DecidableEq

/-- `ask_image` (app.py lines 177-189): 400 on a falsy image, otherwise one
image part (decoded bytes, mime "image/png") then the text prompt; the model
call is not wrapped, so an exception propagates.  `b64decode` stands for the
external `base64.b64decode`. -/
def ask_image (db : DB) (req : AskImageRequest) (b64decode : String → List Nat)
    (model : Model) : HandlerRun :=
  match req.image with
  | none => { outcome := .ok ⟨400, [("error", .s "No image")]⟩, db := db, calls := [] }
  | some img =>
      if img = "" then
        { outcome := .ok ⟨400, [("error", .s "No image")]⟩, db := db, calls := [] }
      else
        let imgPart := ContentBlock.doc (b64decode (afterFirstComma img)) "image/png"
        let prompt := "Analyze the image and then answer: " ++ req.question.getD ""
        let contents := [imgPart, ContentBlock.text prompt]
        match model contents with
        | .ok t => { outcome := .ok ⟨200, [("answer", .s t)]⟩, db := db, calls := [contents] }
        | .error e => { outcome := .uncaught e, db := db, calls := [contents] }

/-- Request of `POST /ask_voice`: base64 data-URL `audio`. -/
structure AskVoiceRequest where
  audio : Option String
  deriving Repr, DecidableEq

/-- `ask_voice` (app.py lines 192-203): 400 on a falsy audio field,
otherwise one audio part (mime "audio/webm") and a fixed text prompt. -/
def ask_voice (db : DB) (req : AskVoiceRequest) (b64decode : String → List Nat)
    (model : Model) : HandlerRun :=
  match req.audio with
  | none => { outcome := .ok ⟨400, [("error", .s "No audio")]⟩, db := db, calls := [] }
  | some aud =>
      if aud = "" then
        { outcome := .ok ⟨400, [("error", .s "No audio")]⟩, db := db, calls := [] }
      else
        let audPart := ContentBlock.doc (b64decode (afterFirstComma aud)) "audio/webm"
        let prompt := "Transcribe and answer any question included, or summarize."
        let contents := [audPart, ContentBlock.text prompt]
        match model contents with
        | .ok t => { outcome := .ok ⟨200, [("answer", .s t)]⟩, db := db, calls := [contents] }
        | .error e => { outcome := .uncaught e, db := db, calls := [contents] }

/-- Request of `POST /flashcards`: `room_id` and `num`.  `num` models the
value after Python `int(...)`, hence an `Int`; absent means the default 8. -/
structure FlashcardsRequest where
  room_id : Option String
  num : Option Int
  deriving Repr, DecidableEq

/-- The flashcards prompt (app.py lines 213-217): an f-string interpolating
`num`, the literal JSON shape, and the citation sentence. -/
def flashcardsPrompt (num : Int) : String :=
  "From the uploaded documents generate up to " ++ toString num ++
  " flashcards as JSON format: \x7b\"cards\":[\x7b\"q\":\"...\",\"a\":\"...\",\"page\":n\x7d]\x7d " ++
  "Use page citations when possible."

/-- `flashcards` (app.py lines 206-222): no field validation at all; parts
(if a truthy room_id), then the prompt; the model call is not wrapped. -/
def flashcards (db : DB) (req : FlashcardsRequest) (model : Model) : HandlerRun :=
  let num := req.num.getD 8
  let contents := roomPartsOpt db req.room_id ++ [ContentBlock.text (flashcardsPrompt num)]
  match model contents with
  | .ok t => { outcome := .ok ⟨200, [("flashcards_raw", .s t)]⟩, db := db, calls := [contents] }
  | .error e => { outcome := .uncaught e, db := db, calls := [contents] }

/-- Request of `POST /summarize`: only `room_id`. -/
structure SummarizeRequest where
  room_id : Option String
  deriving Repr, DecidableEq

/-- The fixed summarize prompt (app.py lines 230-233). -/
def summarizePrompt : String :=
  "Summarize the uploaded materials into key points, formulas, and a short study checklist. " ++
  "Output JSON: \x7bsummary: \x27...\x27, key_points: [...], formulas: [...]\x7d"

/-- `summarize` (app.py lines 225-238): parts then the fixed prompt; the
model call is not wrapped. -/
def summarize (db : DB) (req : SummarizeRequest) (model : Model) : HandlerRun :=
  let contents := roomPartsOpt db req.room_id ++ [ContentBlock.text summarizePrompt]
  match model contents with
  | .ok t => { outcome := .ok ⟨200, [("summary_raw", .s t)]⟩, db := db, calls := [contents] }
  | .error e => { outcome := .uncaught e, db := db, calls := [contents] }

/-- Request of `POST /quiz`: `room_id`, `difficulty` and `num` (after
`int(...)`, default 5). -/
structure QuizRequest where
  room_id : Option String
  difficulty : Option String
  num : Option Int
  deriving Repr, DecidableEq

/-- The quiz prompt (app.py lines 248-251): an f-string interpolating `num`
and the literal JSON shape.  `difficulty` does not occur in it. -/
def quizPrompt (num : Int) : String :=
  "From uploaded documents, generate " ++ toString num ++
  " quiz questions with answers and hints as JSON: " ++
  "\x7b\"quiz\":[\x7b\"q\":\"...\",\"choices\":[\"...\"],\"ans\":\"...\",\"hint\":\"...\"\x7d]\x7d"

/-- `quiz` (app.py lines 241-256): reads `difficulty = data.get("difficulty",
"mixed")` but never uses it; parts then the prompt; the model call is not
wrapped. -/
def quiz (db : DB) (req : QuizRequest) (model : Model) : HandlerRun :=
  let num := req.num.getD 5
  let contents := roomPartsOpt db req.room_id ++ [ContentBlock.text (quizPrompt num)]
  match model contents with
  | .ok t => { outcome := .ok ⟨200, [("quiz_raw", .s t)]⟩, db := db, calls := [contents] }
  | .error e => { outcome := .uncaught e, db := db, calls := [contents] }

/-!  ## Helper lemmas  -/

/-- After an insertion triggered by a miss, looking the name up hits the
fresh row. -/
theorem findRoom_after_insert (db : DB) (name : String)
    (h : findRoom db name = none) :
    findRoom
      { db with
          rooms := db.rooms ++ [⟨db.nextRoomId, name⟩],
          nextRoomId := db.nextRoomId + 1 }
      name = some ⟨db.nextRoomId, name⟩ := by
  unfold findRoom at h ⊢
  simp only [List.find?_append, h, Option.none_or]
  simp [List.find?]

/-- Get-or-create twice with the same name is the same as once. -/
theorem getOrCreateRoom_twice (db : DB) (name : String) :
    getOrCreateRoom (getOrCreateRoom db name).2 name = getOrCreateRoom db name := by
  cases h : findRoom db name with
  | some r => simp [getOrCreateRoom, h]
  | none => simp [getOrCreateRoom, h, findRoom_after_insert db name h]

/-- One upload to a room appends exactly one block to the parts of that room. -/
theorem get_room_parts_upload (db : DB) (rid : String) (f : PdfFile) :
    get_room_parts (upload_pdf db ⟨some rid, some f⟩).db rid =
      get_room_parts db rid ++
        [ContentBlock.doc f.content (pyOrStr f.mimetype "application/pdf")] := by
  simp [upload_pdf, get_room_parts, List.filter_append]

/-- Upload a whole list of files to one room, in order. -/
def uploadAll (db : DB) (rid : String) (files : List PdfFile) : DB :=
  files.foldl (fun d f => (upload_pdf d ⟨some rid, some f⟩).db) db

/-- Uploads accumulate: the parts of the room after `uploadAll` are the old parts
followed by one block per file, in upload order. -/
theorem uploadAll_parts (db : DB) (rid : String) (files : List PdfFile) :
    get_room_parts (uploadAll db rid files) rid =
      get_room_parts db rid ++
        files.map (fun f => ContentBlock.doc f.content (pyOrStr f.mimetype "application/pdf")) := by
  induction files generalizing db with
  | nil => simp [uploadAll]
  | cons f fs ih =>
      have hstep : uploadAll db rid (f :: fs) =
          uploadAll (upload_pdf db ⟨some rid, some f⟩).db rid fs := rfl
      rw [hstep, ih, get_room_parts_upload]
      simp

/-!  ## Claim theorems  -/

/-- C1: `get_or_create_room` is idempotent: when a room with the name exists
the /room operation returns the existing id and inserts no row; when absent
it inserts one row and returns its new id; and running /room twice with the
same name gives identical results (in particular the same room_id). -/
theorem create_room_get_or_create_idempotent (db : DB) (name : String)
    (hname : name ≠ "") :
    create_room (create_room db ⟨some name⟩).db ⟨some name⟩ =
      create_room db ⟨some name⟩ ∧
    (∀ r, findRoom db name = some r →
      create_room db ⟨some name⟩ =
        ⟨.ok ⟨200, [("room_id", .n r.id), ("room_name", .s name)]⟩, db, []⟩) ∧
    (findRoom db name = none →
      create_room db ⟨some name⟩ =
        ⟨.ok ⟨200, [("room_id", .n db.nextRoomId), ("room_name", .s name)]⟩,
          { db with
              rooms := db.rooms ++ [⟨db.nextRoomId, name⟩],
              nextRoomId := db.nextRoomId + 1 },
          []⟩) := by
  have hres : pyOrStr (some name) "default" = name := by simp [pyOrStr, hname]
  refine ⟨?_, ?_, ?_⟩
  · cases h : findRoom db name with
    | some r => simp [create_room, hres, getOrCreateRoom, h]
    | none =>
        simp [create_room, hres, getOrCreateRoom, h, findRoom_after_insert db name h]
  · intro r h
    simp [create_room, hres, getOrCreateRoom, h]
  · intro h
    simp [create_room, hres, getOrCreateRoom, h]

/-- Database holding exactly one room named "bio101" with id 1. -/
def db0 : DB := ⟨[⟨1, "bio101"⟩], [], 2, 1⟩

/-- Witness for C1 at concrete inputs: creating "bio101" twice from the
empty database is the same as once, and on `db0` (where "bio101" already has
id 1) /room answers id 1 and leaves the database unchanged. -/
theorem create_room_get_or_create_idempotent_witness :
    create_room (create_room DB.empty ⟨some "bio101"⟩).db ⟨some "bio101"⟩ =
      create_room DB.empty ⟨some "bio101"⟩ ∧
    create_room db0 ⟨some "bio101"⟩ =
      ⟨.ok ⟨200, [("room_id", .n 1), ("room_name", .s "bio101")]⟩, db0, []⟩ :=
  ⟨(create_room_get_or_create_idempotent DB.empty "bio101" (by decide)).1,
   (create_room_get_or_create_idempotent db0 "bio101" (by decide)).2.1
     ⟨1, "bio101"⟩ rfl⟩

/-- C2: uploading N documents to a room that has none and then listing that
room returns exactly N entries, one block per uploaded file in upload order
(no pagination, no limit). -/
theorem upload_then_list_in_order (db : DB) (rid : String) (files : List PdfFile)
    (h0 : get_room_parts db rid = []) :
    get_room_parts (uploadAll db rid files) rid =
      files.map (fun f => ContentBlock.doc f.content (pyOrStr f.mimetype "application/pdf")) ∧
    (get_room_parts (uploadAll db rid files) rid).length = files.length := by
  rw [uploadAll_parts, h0]
  simp

/-- Witness for C2: two concrete uploads to room "1" of the empty database
list back as exactly those two blocks, in order. -/
theorem upload_then_list_in_order_witness :
    get_room_parts DB.empty "1" = [] ∧
    get_room_parts
        (uploadAll DB.empty "1"
          [⟨"notes.pdf", [1, 2], some "application/pdf"⟩, ⟨"b.pdf", [3], none⟩]) "1" =
      [ContentBlock.doc [1, 2] "application/pdf",
       ContentBlock.doc [3] "application/pdf"] ∧
    (get_room_parts
        (uploadAll DB.empty "1"
          [⟨"notes.pdf", [1, 2], some "application/pdf"⟩, ⟨"b.pdf", [3], none⟩]) "1").length = 2 := by
  refine ⟨rfl, ?_, ?_⟩
  · exact (upload_then_list_in_order DB.empty "1"
      [⟨"notes.pdf", [1, 2], some "application/pdf"⟩, ⟨"b.pdf", [3], none⟩] rfl).1
  · exact (upload_then_list_in_order DB.empty "1"
      [⟨"notes.pdf", [1, 2], some "application/pdf"⟩, ⟨"b.pdf", [3], none⟩] rfl).2

/-- C3: for each of ask_pdf, flashcards, summarize and quiz, every content
list sent to the model is exactly the document blocks of the room in store order
followed by one trailing text block (the assembled instruction); and the
room parts consist solely of document blocks, so the trailing text block is
the only text block and is last. -/
theorem content_list_shape (db : DB) (model : Model) (ra : AskPdfRequest)
    (rf : FlashcardsRequest) (rs : SummarizeRequest) (rq : QuizRequest) :
    ((ask_pdf db ra model).calls =
      if askPdfQuestion ra = "" then []
      else [roomPartsOpt db ra.room_id ++ [ContentBlock.text (askPdfPrompt ra)]]) ∧
    ((flashcards db rf model).calls =
      [roomPartsOpt db rf.room_id ++ [ContentBlock.text (flashcardsPrompt (rf.num.getD 8))]]) ∧
    ((summarize db rs model).calls =
      [roomPartsOpt db rs.room_id ++ [ContentBlock.text summarizePrompt]]) ∧
    ((quiz db rq model).calls =
      [roomPartsOpt db rq.room_id ++ [ContentBlock.text (quizPrompt (rq.num.getD 5))]]) ∧
    (∀ rid : Option String, ∃ rows : List Doc,
      roomPartsOpt db rid = rows.map (fun d => ContentBlock.doc d.data d.mime)) := by
  refine ⟨?_, ?_, ?_, ?_, ?_⟩
  · by_cases h : askPdfQuestion ra = ""
    · simp [ask_pdf, h]
    · simp only [ask_pdf, h, if_neg h]
      cases hm : model (roomPartsOpt db ra.room_id ++ [ContentBlock.text (askPdfPrompt ra)]) <;>
        simp [hm]
  · unfold flashcards
    cases hm : model (roomPartsOpt db rf.room_id ++
        [ContentBlock.text (flashcardsPrompt (rf.num.getD 8))]) <;> simp [hm]
  · unfold summarize
    cases hm : model (roomPartsOpt db rs.room_id ++ [ContentBlock.text summarizePrompt]) <;>
      simp [hm]
  · unfold quiz
    cases hm : model (roomPartsOpt db rq.room_id ++
        [ContentBlock.text (quizPrompt (rq.num.getD 5))]) <;> simp [hm]
  · intro rid
    cases rid with
    | none => exact ⟨[], rfl⟩
    | some r =>
        by_cases h : r = ""
        · exact ⟨[], by simp [roomPartsOpt, h]⟩
        · exact ⟨db.docs.filter (fun d => d.room_id == some r), by simp [roomPartsOpt, h, get_room_parts]⟩

/-- The optional level-specific clause of the /ask_pdf instruction, as the
spec describes it: selected by exact string match on the level, empty for
any other value.  Stated separately so the source-derived
`askPdfInstruction` can be compared against preamble-plus-clause. -/
def levelClausePdf (level : String) : String :=
  if level = "child" then "Explain like I\x27m 10. "
  else if level = "exam" then "Explain concisely, exam-focused. "
  else if level = "professor" then "Give an in-depth technical explanation. "
  else ""

/-- The /ask_pdf instruction always splits as preamble plus clause. -/
theorem askPdfInstruction_decomp (l : String) :
    askPdfInstruction l = askPdfBase ++ levelClausePdf l := by
  unfold askPdfInstruction levelClausePdf
  split_ifs <;> simp

/-- The /ask_pdf clause is non-empty exactly on the three level names. -/
theorem levelClausePdf_ne_empty (l : String) :
    levelClausePdf l ≠ "" ↔ (l = "child" ∨ l = "exam" ∨ l = "professor") := by
  unfold levelClausePdf
  split_ifs <;> simp_all

/-- The /ask_text clause is non-empty exactly on the three level names. -/
theorem askTextInstr_ne_empty (l : String) :
    askTextInstr l ≠ "" ↔ (l = "child" ∨ l = "exam" ∨ l = "professor") := by
  unfold askTextInstr
  split_ifs <;> simp_all

/-- Resolving an optional level with `or "default"` lands on one of the
three clause-bearing names exactly when the request carried that name. -/
theorem pyOrStr_eq_iff (lvl : Option String) (c : String) (hc : c ≠ "default")
    (hc2 : c ≠ "") : pyOrStr lvl "default" = c ↔ lvl = some c := by
  cases lvl with
  | none => simp [pyOrStr]; exact fun h => hc h.symm
  | some s =>
      by_cases h : s = ""
      · subst h
        simp [pyOrStr]
        exact ⟨fun h2 => absurd h2.symm hc, fun h2 => absurd h2.symm hc2⟩
      · simp [pyOrStr, h]

/-- Resolving an optional level with `.get("level", "default")` lands on a
clause-bearing name exactly when the request carried that name. -/
theorem getD_eq_iff (lvl : Option String) (c : String) (hc : c ≠ "default") :
    lvl.getD "default" = c ↔ lvl = some c := by
  cases lvl with
  | none => simp; exact fun h => hc h.symm
  | some s => simp

/-- C4: for every value of the level field (any string, or absent/null), the
/ask_pdf and /ask_text instructions carry a level-specific clause exactly
when the field is literally "child", "exam" or "professor", and no clause
otherwise. -/
theorem level_clause_exact_match (lvl : Option String) :
    (askPdfInstruction (pyOrStr lvl "default") =
        askPdfBase ++ levelClausePdf (pyOrStr lvl "default")) ∧
    (levelClausePdf (pyOrStr lvl "default") ≠ "" ↔
        (lvl = some "child" ∨ lvl = some "exam" ∨ lvl = some "professor")) ∧
    (askTextInstr (lvl.getD "default") ≠ "" ↔
        (lvl = some "child" ∨ lvl = some "exam" ∨ lvl = some "professor")) := by
  refine ⟨askPdfInstruction_decomp _, ?_, ?_⟩
  · rw [levelClausePdf_ne_empty]
    constructor
    · rintro (h | h | h)
      · exact Or.inl ((pyOrStr_eq_iff lvl "child" (by decide) (by decide)).mp h)
      · exact Or.inr (Or.inl ((pyOrStr_eq_iff lvl "exam" (by decide) (by decide)).mp h))
      · exact Or.inr (Or.inr ((pyOrStr_eq_iff lvl "professor" (by decide) (by decide)).mp h))
    · rintro (h | h | h)
      · exact Or.inl ((pyOrStr_eq_iff lvl "child" (by decide) (by decide)).mpr h)
      · exact Or.inr (Or.inl ((pyOrStr_eq_iff lvl "exam" (by decide) (by decide)).mpr h))
      · exact Or.inr (Or.inr ((pyOrStr_eq_iff lvl "professor" (by decide) (by decide)).mpr h))
  · rw [askTextInstr_ne_empty]
    constructor
    · rintro (h | h | h)
      · exact Or.inl ((getD_eq_iff lvl "child" (by decide)).mp h)
      · exact Or.inr (Or.inl ((getD_eq_iff lvl "exam" (by decide)).mp h))
      · exact Or.inr (Or.inr ((getD_eq_iff lvl "professor" (by decide)).mp h))
    · rintro (h | h | h)
      · exact Or.inl ((getD_eq_iff lvl "child" (by decide)).mpr h)
      · exact Or.inr (Or.inl ((getD_eq_iff lvl "exam" (by decide)).mpr h))
      · exact Or.inr (Or.inr ((getD_eq_iff lvl "professor" (by decide)).mpr h))

/-- A model stub that always answers with the given text. -/
def okModel (t : String) : Model := fun _ => Except.ok t

/-- A model stub that always raises, with the given error text. -/
def failingModel (e : String) : Model := fun _ => Except.error e

/-- C5: each endpoint with a missing required field answers HTTP 400 with an
`error` body, leaves the database untouched and issues no model request:
/ask_text without question, /ask_pdf without question (and prompt),
/upload_pdf without file, /ask_image without image, /ask_voice without
audio. -/
theorem missing_required_field_400 (db : DB) (model : Model)
    (b64 : String → List Nat) :
    (∀ lvl : Option String, ask_text db ⟨none, lvl⟩ model =
      ⟨.ok ⟨400, [("error", .s "No question")]⟩, db, []⟩) ∧
    (∀ rid lvl : Option String, ask_pdf db ⟨rid, none, none, lvl⟩ model =
      ⟨.ok ⟨400, [("error", .s "No question provided")]⟩, db, []⟩) ∧
    (∀ rid : Option String, upload_pdf db ⟨rid, none⟩ =
      ⟨.ok ⟨400, [("error", .s "No PDF uploaded")]⟩, db, []⟩) ∧
    (∀ q : Option String, ask_image db ⟨none, q⟩ b64 model =
      ⟨.ok ⟨400, [("error", .s "No image")]⟩, db, []⟩) ∧
    (ask_voice db ⟨none⟩ b64 model =
      ⟨.ok ⟨400, [("error", .s "No audio")]⟩, db, []⟩) :=
  ⟨fun _ => rfl, fun _ _ => rfl, fun _ => rfl, fun _ => rfl, rfl⟩

/-- C6 counterexample: two /quiz requests identical except for the
difficulty ("easy" versus "hard") produce bitwise-identical runs — the same
single model request and the same response — so the assembled quiz
instruction does not depend on the supplied difficulty. -/
theorem quiz_difficulty_ignored_cex :
    quiz DB.empty ⟨some "1", some "easy", some 3⟩ (okModel "Q") =
      quiz DB.empty ⟨some "1", some "hard", some 3⟩ (okModel "Q") ∧
    (quiz DB.empty ⟨some "1", some "easy", some 3⟩ (okModel "Q")).calls =
      [[ContentBlock.text (quizPrompt 3)]] :=
  ⟨rfl, rfl⟩

/-- C6 (amended): the /quiz trailing text block is built from the request
field `num` (which it genuinely depends on), while the `difficulty` field is read
and ignored: the whole run is invariant under changing it. -/
theorem quiz_prompt_uses_num_not_difficulty (db : DB) (model : Model)
    (rid : Option String) (d1 d2 : Option String) (n : Option Int) :
    quiz db ⟨rid, d1, n⟩ model = quiz db ⟨rid, d2, n⟩ model ∧
    (quiz db ⟨rid, d1, n⟩ model).calls =
      [roomPartsOpt db rid ++ [ContentBlock.text (quizPrompt (n.getD 5))]] ∧
    quizPrompt 3 ≠ quizPrompt 5 := by
  refine ⟨rfl, ?_, by decide⟩
  unfold quiz
  cases hm : model (roomPartsOpt db rid ++ [ContentBlock.text (quizPrompt (n.getD 5))]) <;>
    simp [hm]

/-- C7: /ask_pdf on a room with no stored documents (or with no room_id at
all) still issues exactly one model request holding only the text block, and
passes the answer of the model through with HTTP 200. -/
theorem ask_pdf_no_documents_ok (db : DB) (model : Model) (req : AskPdfRequest)
    (hq : askPdfQuestion req ≠ "") (hparts : roomPartsOpt db req.room_id = [])
    (ans : String)
    (hm : model [ContentBlock.text (askPdfPrompt req)] = Except.ok ans) :
    (ask_pdf db req model).calls = [[ContentBlock.text (askPdfPrompt req)]] ∧
    (ask_pdf db req model).outcome = .ok ⟨200, [("answer", .s ans)]⟩ := by
  unfold ask_pdf
  rw [if_neg hq, hparts]
  simp [hm]

/-- Witness for C7: a concrete question to the empty database with no
room_id gives one text-only request and the stub answer. -/
theorem ask_pdf_no_documents_ok_witness :
    (ask_pdf DB.empty ⟨none, some "What is mitosis?", none, some "child"⟩
        (okModel "A")).calls =
      [[ContentBlock.text
          (askPdfPrompt ⟨none, some "What is mitosis?", none, some "child"⟩)]] ∧
    (ask_pdf DB.empty ⟨none, some "What is mitosis?", none, some "child"⟩
        (okModel "A")).outcome = .ok ⟨200, [("answer", .s "A")]⟩ :=
  ask_pdf_no_documents_ok DB.empty (okModel "A")
    ⟨none, some "What is mitosis?", none, some "child"⟩ (by decide) rfl "A" rfl

/-- C8: /flashcards and /quiz accept num = 0 without any lower-bound check:
one generation request is still issued, and the digit 0 is interpolated into
the instruction text. -/
theorem num_zero_still_generates (db : DB) (model : Model)
    (rid : Option String) (d : Option String) :
    (flashcards db ⟨rid, some 0⟩ model).calls =
      [roomPartsOpt db rid ++ [ContentBlock.text (flashcardsPrompt 0)]] ∧
    (quiz db ⟨rid, d, some 0⟩ model).calls =
      [roomPartsOpt db rid ++ [ContentBlock.text (quizPrompt 0)]] ∧
    flashcardsPrompt 0 =
      "From the uploaded documents generate up to 0 flashcards as JSON format: \x7b\"cards\":[\x7b\"q\":\"...\",\"a\":\"...\",\"page\":n\x7d]\x7d Use page citations when possible." ∧
    quizPrompt 0 =
      "From uploaded documents, generate 0 quiz questions with answers and hints as JSON: \x7b\"quiz\":[\x7b\"q\":\"...\",\"choices\":[\"...\"],\"ans\":\"...\",\"hint\":\"...\"\x7d]\x7d" := by
  refine ⟨?_, ?_, by decide, by decide⟩
  · unfold flashcards
    cases hm : model (roomPartsOpt db rid ++ [ContentBlock.text (flashcardsPrompt 0)]) <;>
      simp [hm]
  · unfold quiz
    cases hm : model (roomPartsOpt db rid ++ [ContentBlock.text (quizPrompt 0)]) <;>
      simp [hm]

/-- C9: a raised model call is caught only in /ask_pdf, which turns it into
HTTP 500 with the raw error text; in /ask_text, /flashcards, /summarize and
/quiz the same failure propagates out of the handler uncaught. -/
theorem model_error_caught_only_in_ask_pdf (db : DB) (err : String)
    (ra : AskPdfRequest) (hqa : askPdfQuestion ra ≠ "")
    (rt : AskTextRequest) (hqt : rt.question.getD "" ≠ "")
    (rf : FlashcardsRequest) (rs : SummarizeRequest) (rq : QuizRequest) :
    (ask_pdf db ra (failingModel err)).outcome = .ok ⟨500, [("error", .s err)]⟩ ∧
    (ask_text db rt (failingModel err)).outcome = .uncaught err ∧
    (flashcards db rf (failingModel err)).outcome = .uncaught err ∧
    (summarize db rs (failingModel err)).outcome = .uncaught err ∧
    (quiz db rq (failingModel err)).outcome = .uncaught err := by
  refine ⟨?_, ?_, rfl, rfl, rfl⟩
  · unfold ask_pdf
    rw [if_neg hqa]
    rfl
  · unfold ask_text
    rw [if_neg hqt]
    rfl

/-- Witness for C9 at concrete requests: with a model that raises "boom",
/ask_pdf answers 500 with the error while the other four handlers end in an
uncaught failure. -/
theorem model_error_caught_only_in_ask_pdf_witness :
    (ask_pdf DB.empty ⟨none, some "q", none, none⟩ (failingModel "boom")).outcome =
      .ok ⟨500, [("error", .s "boom")]⟩ ∧
    (ask_text DB.empty ⟨some "q", none⟩ (failingModel "boom")).outcome = .uncaught "boom" ∧
    (flashcards DB.empty ⟨none, none⟩ (failingModel "boom")).outcome = .uncaught "boom" ∧
    (summarize DB.empty ⟨none⟩ (failingModel "boom")).outcome = .uncaught "boom" ∧
    (quiz DB.empty ⟨none, none, none⟩ (failingModel "boom")).outcome = .uncaught "boom" :=
  model_error_caught_only_in_ask_pdf DB.empty "boom"
    ⟨none, some "q", none, none⟩ (by decide) ⟨some "q", none⟩ (by decide)
    ⟨none, none⟩ ⟨none⟩ ⟨none, none, none⟩

/-- C10: a /room request whose room_name is absent, null or empty does not
fail: the handler substitutes the literal "default", get-or-creates under
that name, and answers 200 with the resulting id and room_name "default". -/
theorem room_missing_name_defaults (db : DB) (rn : Option String)
    (h : rn = none ∨ rn = some "") :
    create_room db ⟨rn⟩ =
      ⟨.ok ⟨200, [("room_id", .n (getOrCreateRoom db "default").1),
                  ("room_name", .s "default")]⟩,
        (getOrCreateRoom db "default").2, []⟩ := by
  rcases h with h | h <;> subst h <;> rfl

/-- Witness for C10: on the empty database with no room_name at all, /room
answers 200, room_id 1, room_name "default", and the database now holds the
one room "default". -/
theorem room_missing_name_defaults_witness :
    create_room DB.empty ⟨none⟩ =
      ⟨.ok ⟨200, [("room_id", .n 1), ("room_name", .s "default")]⟩,
        ⟨[⟨1, "default"⟩], [], 2, 1⟩, []⟩ :=
  (room_missing_name_defaults DB.empty none (Or.inl rfl)).trans (by decide)
